import Mathlib

/-!
# Broadcast manager (`internal/broadcast/manager.go`)

A shallow embedding of `NewBroadcastManager`, `dispatchBatch` and `publishBlobs`.

The Go code is effectful: it calls methods of collaborator objects. Here a collaborator
object is a `Handle` (a Go interface value is `Option Handle`, `none` being `nil`), the
behaviour of all collaborators is a `World σ` of state-passing functions over an arbitrary
state type `σ`, and every function of the embedding returns, next to its Go result, the
final state and the chronological list of collaborator calls it made, each with its result.
The `ctx` argument and the `log.L(ctx).Infof` lines have no counterpart.
-/

namespace Firefly

/-! ## Data model -/

abbrev UUID := String

abbrev Bytes32 := String

/-- A collaborator object; `Name()` of a `fftypes.Named` is its `name`. -/
structure Handle where
  name : String
deriving DecidableEq, Repr

/-- The stream returned by `DownloadBLOB` (an `io.ReadCloser`). -/
structure Reader where
  id : Nat
deriving DecidableEq, Repr

/-- Message keys of `i18n` used in `manager.go`. -/
inductive MsgKey where
  | MsgInitializationNilDepError
  | MsgDownloadBlobFailed
deriving DecidableEq, Repr

/-- Modelled from the spec: `i18n.NewError` and `i18n.WrapError` are missing from the
sources. An error is either one produced outside this package (`ext`), one created by
`i18n.NewError(ctx, key, inserts...)`, or one created by
`i18n.WrapError(ctx, cause, key, inserts...)`, which keeps its cause and carries the
inserts "for diagnosis". -/
inductive Err where
  | ext (msg : String)
  | new (key : MsgKey) (inserts : List String)
  | wrap (cause : Err) (key : MsgKey) (inserts : List String)
deriving DecidableEq, Repr

/-- All inserts attached to an error along its chain of causes. -/
def Err.inserts : Err → List String
  | .ext _ => []
  | .new _ ins => ins
  | .wrap cause _ ins => ins ++ cause.inserts

/-- An error carries a content reference when the reference is one of its inserts. -/
def Err.carries (ref : String) (e : Err) : Prop := ref ∈ e.inserts

instance (ref : String) (e : Err) : Decidable (e.carries ref) := by
  unfold Err.carries; infer_instance

inductive TransactionType where
  | TransactionTypeBatchPin
  | other (name : String)
deriving DecidableEq, Repr

inductive MessageType where
  | MessageTypeBroadcast
  | MessageTypeDefinition
  | MessageTypeTransferBroadcast
  | other (name : String)
deriving DecidableEq, Repr

inductive OpType where
  | OpTypeSharedStorageBatchBroadcast
  | other (name : String)
deriving DecidableEq, Repr

inductive OpStatus where
  | Pending
  | Succeeded
  | Failed
deriving DecidableEq, Repr

structure TransactionRef where
  Type_ : TransactionType
  ID : UUID
deriving DecidableEq, Repr

structure BatchPayload where
  TX : TransactionRef
  Messages : List UUID
deriving DecidableEq, Repr

/-- The fields of `fftypes.Batch` read by `dispatchBatch`, with the message sequence and
payload hash of the data model. -/
structure Batch where
  ID : UUID
  Namespace : String
  Author : String
  Key : String
  Hash : Bytes32
  Payload : BatchPayload
deriving DecidableEq, Repr

/-- Modelled from the spec: `fftypes.Operation` is missing from the sources. "Natural key =
(namespace, transaction reference, operation type). Attributes: state, opaque typed input
payload, owning plugin reference." -/
structure Operation where
  Plugin : String
  Namespace : String
  Transaction : UUID
  Type_ : OpType
  Status : OpStatus
  Input : List (String × String)
deriving DecidableEq, Repr

/-- Modelled from the spec: `fftypes.NewOperation` is missing from the sources. The
descriptor is "keyed by (shared-storage plugin identity, batch namespace, batch's
transaction reference, operation type)"; a new record is Pending and has no input yet. -/
def NewOperation (plugin : Handle) (ns : String) (tx : UUID) (opType : OpType) : Operation :=
  { Plugin := plugin.name, Namespace := ns, Transaction := tx, Type_ := opType,
    Status := .Pending, Input := [] }

/-- Modelled from the spec: `addBatchBroadcastInputs` is missing from the sources. It sets
the "input payload = {batch ID}". -/
def addBatchBroadcastInputs (op : Operation) (batchID : UUID) : Operation :=
  { op with Input := [("id", batchID)] }

/-- Modelled from the spec: `fftypes.PreparedOperation` is missing from the sources. "A
typed, in-memory projection of an Operation's opaque payload": the operation together with
the typed action, which batch to upload. -/
structure PreparedOperation where
  Operation : Operation
  Batch : Batch
deriving DecidableEq, Repr

/-- Modelled from the spec: `opBatchBroadcast` is missing from the sources. -/
def opBatchBroadcast (op : Operation) (batch : Batch) : PreparedOperation :=
  { Operation := op, Batch := batch }

structure Data where
  ID : UUID
deriving DecidableEq, Repr

structure Blob where
  Hash : Bytes32
  PayloadRef : String
  Public : String
deriving DecidableEq, Repr

structure DataAndBlob where
  Data : Data
  Blob : Blob
deriving DecidableEq, Repr

/-- Modelled from the spec: the update builder of `pkg/database` is missing from the
sources. A "targeted field update" is the list of fields it sets, with their values. -/
structure Update where
  sets : List (String × String)
deriving DecidableEq, Repr

/-- Stands for `database.DataQueryFactory.NewUpdate(ctx)`. -/
def NewUpdate : Update := ⟨[]⟩

/-- Stands for `update.Set(field, value)`. -/
def Update.Set (u : Update) (field value : String) : Update := ⟨u.sets ++ [(field, value)]⟩

/-- The values `NewBroadcastManager` reads through the `config` package, which is missing
from the sources: they are taken as a parameter. -/
structure Config where
  BroadcastBatchPayloadLimit : Int
  BroadcastBatchSize : Nat
  BroadcastBatchTimeout : Int
  BroadcastBatchAgentTimeout : Int
deriving DecidableEq, Repr

structure DispatcherOptions where
  RequiresSharedDataPayloadRefs : Bool
  BatchMaxSize : Nat
  BatchMaxBytes : Int
  BatchTimeout : Int
  DisposeTimeout : Int
deriving DecidableEq, Repr

def broadcastDispatcherName : String := "pinned_broadcast"

/-- The struct `broadcastManager` without `ctx`. The nine collaborators that the guard of
`NewBroadcastManager` checks are stored as handles; `syncasync` and `batchpin`, which the
guard does not check, are stored as they were passed and may be `nil`. -/
structure broadcastManager where
  database : Handle
  identity : Handle
  data : Handle
  blockchain : Handle
  exchange : Handle
  sharedstorage : Handle
  batch : Handle
  syncasync : Option Handle
  batchpin : Option Handle
  maxBatchPayloadLength : Int
  metrics : Handle
  operations : Handle
deriving DecidableEq, Repr

/-! ## Collaborators and observations -/

/-- The behaviour of every collaborator method called in `manager.go`, as a function of
the receiver, a state and the arguments. `AddOrReuseOperation` takes a pointer to the
operation and may overwrite it with the reused record, so it also returns the operation.
`Close` is the method of the reader; its error is dropped by the caller. -/
structure World (σ : Type) where
  RegisterDispatcher : Handle → σ → String → TransactionType → List MessageType →
    broadcastManager → DispatcherOptions → σ
  RegisterHandler : Handle → σ → broadcastManager → List OpType → σ
  AddOrReuseOperation : Handle → σ → Operation → σ × Operation × Option Err
  RunOperation : Handle → σ → PreparedOperation → σ × Option Err
  SubmitPinnedBatch : Handle → σ → Batch → List Bytes32 → σ × Option Err
  DownloadBLOB : Handle → σ → String → σ × Except Err Reader
  PublishData : Handle → σ → Reader → σ × Except Err String
  UpdateData : Handle → σ → UUID → Update → σ × Option Err
  Close : σ → Reader → σ

deriving instance DecidableEq for Except

/-- One collaborator call, with its arguments and, when it has one, its result. The
callback `bm.dispatchBatch` of `RegisterDispatcher` is recorded as the manager it is bound
to. -/
inductive Event where
  | RegisterDispatcher (name : String) (txType : TransactionType)
      (msgTypes : List MessageType) (callback : broadcastManager) (options : DispatcherOptions)
  | RegisterHandler (handler : broadcastManager) (opTypes : List OpType)
  | AddOrReuseOperation (op : Operation) (err : Option Err)
  | RunOperation (op : PreparedOperation) (err : Option Err)
  | SubmitPinnedBatch (batch : Batch) (pins : List Bytes32) (err : Option Err)
  | DownloadBLOB (ref : String) (res : Except Err Reader)
  | PublishData (reader : Reader) (res : Except Err String)
  | UpdateData (id : UUID) (update : Update) (err : Option Err)
  | Close (reader : Reader)
deriving DecidableEq

/-- How a Go function of type `func(...) error` ends: it returns an error value (`none`
is `nil`), or it panics on a call through a nil interface value. -/
inductive Result where
  | returned (err : Option Err)
  | panicked
deriving DecidableEq, Repr

/-! ## `NewBroadcastManager` -/

structure NewOut (σ : Type) where
  state : σ
  trace : List Event
  manager : Option broadcastManager
  err : Option Err

/-- Embedding of `NewBroadcastManager` (lines 77-118). The first case is the code after
the guard of line 78, reached when none of `di, im, dm, bi, dx, si, ba, mm, om` is nil;
the second is the guard's `return nil, i18n.NewError(...)`. -/
def NewBroadcastManager {σ : Type} (w : World σ) (cfg : Config) (s : σ)
    (di im dm bi dx si ba sa bp mm om : Option Handle) : NewOut σ :=
  match di, im, dm, bi, dx, si, ba, mm, om with
  | some di, some im, some dm, some bi, some dx, some si, some ba, some mm, some om =>
    let bm : broadcastManager :=
      { database := di, identity := im, data := dm, blockchain := bi, exchange := dx,
        sharedstorage := si, batch := ba, syncasync := sa, batchpin := bp,
        maxBatchPayloadLength := cfg.BroadcastBatchPayloadLimit,
        metrics := mm, operations := om }
    let bo : DispatcherOptions :=
      { RequiresSharedDataPayloadRefs := true,
        BatchMaxSize := cfg.BroadcastBatchSize,
        BatchMaxBytes := bm.maxBatchPayloadLength,
        BatchTimeout := cfg.BroadcastBatchTimeout,
        DisposeTimeout := cfg.BroadcastBatchAgentTimeout }
    let msgTypes : List MessageType :=
      [.MessageTypeBroadcast, .MessageTypeDefinition, .MessageTypeTransferBroadcast]
    let s1 := w.RegisterDispatcher ba s broadcastDispatcherName
      .TransactionTypeBatchPin msgTypes bm bo
    let opTypes : List OpType := [.OpTypeSharedStorageBatchBroadcast]
    let s2 := w.RegisterHandler om s1 bm opTypes
    { state := s2,
      trace := [.RegisterDispatcher broadcastDispatcherName .TransactionTypeBatchPin
                  msgTypes bm bo,
                .RegisterHandler bm opTypes],
      manager := some bm, err := none }
  | _, _, _, _, _, _, _, _, _ =>
    { state := s, trace := [], manager := none,
      err := some (.new .MsgInitializationNilDepError []) }

/-! ## `dispatchBatch` -/

structure Out (σ : Type) where
  state : σ
  trace : List Event
  result : Result

/-- Embedding of `dispatchBatch` (lines 124-140). -/
def dispatchBatch {σ : Type} (w : World σ) (bm : broadcastManager) (s : σ)
    (batch : Batch) (pins : List Bytes32) : Out σ :=
  let op := addBatchBroadcastInputs
    (NewOperation bm.sharedstorage batch.Namespace batch.Payload.TX.ID
      .OpTypeSharedStorageBatchBroadcast) batch.ID
  match w.AddOrReuseOperation bm.operations s op with
  | (s1, _, some err) =>
    { state := s1, trace := [.AddOrReuseOperation op (some err)],
      result := .returned (some err) }
  | (s1, op1, none) =>
    let prepared := opBatchBroadcast op1 batch
    match w.RunOperation bm.operations s1 prepared with
    | (s2, some err) =>
      { state := s2,
        trace := [.AddOrReuseOperation op none, .RunOperation prepared (some err)],
        result := .returned (some err) }
    | (s2, none) =>
      match bm.batchpin with
      | none =>
        { state := s2,
          trace := [.AddOrReuseOperation op none, .RunOperation prepared none],
          result := .panicked }
      | some bp =>
        match w.SubmitPinnedBatch bp s2 batch pins with
        | (s3, err) =>
          { state := s3,
            trace := [.AddOrReuseOperation op none, .RunOperation prepared none,
                      .SubmitPinnedBatch batch pins err],
            result := .returned err }

/-! ## `publishBlobs` -/

/-- The loop of `publishBlobs` before the function returns: the deferred `reader.Close()`
calls have not run yet and are pending, the most recently deferred first. -/
structure LoopOut (σ : Type) where
  state : σ
  trace : List Event
  deferred : List Reader
  err : Option Err

/-- Embedding of the `for` loop of `publishBlobs` (lines 143-165). An iteration that
succeeds goes on with the next pair; `defer reader.Close()` of line 149 pushes the reader
on the stack of deferred calls of the enclosing function. -/
def publishLoop {σ : Type} (w : World σ) (bm : broadcastManager) :
    σ → List DataAndBlob → LoopOut σ
  | s, [] => { state := s, trace := [], deferred := [], err := none }
  | s, d :: ds =>
    match w.DownloadBLOB bm.exchange s d.Blob.PayloadRef with
    | (s1, .error err) =>
      { state := s1, trace := [.DownloadBLOB d.Blob.PayloadRef (.error err)],
        deferred := [],
        err := some (.wrap err .MsgDownloadBlobFailed [d.Blob.PayloadRef]) }
    | (s1, .ok reader) =>
      match w.PublishData bm.sharedstorage s1 reader with
      | (s2, .error err) =>
        { state := s2,
          trace := [.DownloadBLOB d.Blob.PayloadRef (.ok reader),
                    .PublishData reader (.error err)],
          deferred := [reader], err := some err }
      | (s2, .ok sharedRef) =>
        let update := NewUpdate.Set "blob.public" sharedRef
        match w.UpdateData bm.database s2 d.Data.ID update with
        | (s3, some err) =>
          { state := s3,
            trace := [.DownloadBLOB d.Blob.PayloadRef (.ok reader),
                      .PublishData reader (.ok sharedRef),
                      .UpdateData d.Data.ID update (some err)],
            deferred := [reader], err := some err }
        | (s3, none) =>
          let rest := publishLoop w bm s3 ds
          { state := rest.state,
            trace := [.DownloadBLOB d.Blob.PayloadRef (.ok reader),
                      .PublishData reader (.ok sharedRef),
                      .UpdateData d.Data.ID update none] ++ rest.trace,
            deferred := rest.deferred ++ [reader], err := rest.err }

/-- The deferred calls of a Go function run when it returns, last deferred first. -/
def runDeferred {σ : Type} (w : World σ) : σ → List Reader → σ × List Event
  | s, [] => (s, [])
  | s, r :: rs =>
    let out := runDeferred w (w.Close s r) rs
    (out.1, .Close r :: out.2)

/-- Embedding of `publishBlobs` (lines 142-168): the loop, then the deferred calls. -/
def publishBlobs {σ : Type} (w : World σ) (bm : broadcastManager) (s : σ)
    (dataToPublish : List DataAndBlob) : Out σ :=
  let loop := publishLoop w bm s dataToPublish
  let closed := runDeferred w loop.state loop.deferred
  { state := closed.1, trace := loop.trace ++ closed.2, result := .returned loop.err }

/-! ## Observations on a list of calls -/

def Event.addOp? : Event → Option Operation
  | .AddOrReuseOperation op _ => some op
  | _ => none

def Event.runOp? : Event → Option PreparedOperation
  | .RunOperation op _ => some op
  | _ => none

def Event.submitArgs? : Event → Option (Batch × List Bytes32)
  | .SubmitPinnedBatch batch pins _ => some (batch, pins)
  | _ => none

def Event.downloadRef? : Event → Option String
  | .DownloadBLOB ref _ => some ref
  | _ => none

def Event.downloaded? : Event → Option Reader
  | .DownloadBLOB _ (.ok r) => some r
  | _ => none

def Event.publishArg? : Event → Option Reader
  | .PublishData r _ => some r
  | _ => none

def Event.publishedRef? : Event → Option String
  | .PublishData _ (.ok ref) => some ref
  | _ => none

def Event.updateArgs? : Event → Option (UUID × Update)
  | .UpdateData id u _ => some (id, u)
  | _ => none

def Event.closed? : Event → Option Reader
  | .Close r => some r
  | _ => none

/-- A call that returned an error. -/
def Event.failed : Event → Bool
  | .AddOrReuseOperation _ (some _) => true
  | .RunOperation _ (some _) => true
  | .SubmitPinnedBatch _ _ (some _) => true
  | .DownloadBLOB _ (.error _) => true
  | .PublishData _ (.error _) => true
  | .UpdateData _ _ (some _) => true
  | _ => false

def Event.isRegisterDispatcher : Event → Bool
  | .RegisterDispatcher .. => true
  | _ => false

def Event.isRegisterHandler : Event → Bool
  | .RegisterHandler .. => true
  | _ => false

/-- Operations handed to `AddOrReuseOperation`, in call order. -/
def addCalls (tr : List Event) : List Operation := tr.filterMap Event.addOp?

/-- Prepared operations handed to `RunOperation`, in call order. -/
def runCalls (tr : List Event) : List PreparedOperation := tr.filterMap Event.runOp?

/-- Arguments of the `SubmitPinnedBatch` calls, in call order. -/
def submitCalls (tr : List Event) : List (Batch × List Bytes32) :=
  tr.filterMap Event.submitArgs?

/-- References handed to `DownloadBLOB`, in call order. -/
def downloadCalls (tr : List Event) : List String := tr.filterMap Event.downloadRef?

/-- Streams returned by the `DownloadBLOB` calls that succeeded, in call order. -/
def downloaded (tr : List Event) : List Reader := tr.filterMap Event.downloaded?

/-- Streams handed to `PublishData`, in call order. -/
def publishCalls (tr : List Event) : List Reader := tr.filterMap Event.publishArg?

/-- Public references returned by the `PublishData` calls that succeeded, in call order. -/
def publishedRefs (tr : List Event) : List String := tr.filterMap Event.publishedRef?

/-- Arguments of the `UpdateData` calls, in call order. -/
def updateCalls (tr : List Event) : List (UUID × Update) := tr.filterMap Event.updateArgs?

/-- Streams on which `Close` was called, in call order. -/
def closeCalls (tr : List Event) : List Reader := tr.filterMap Event.closed?

/-- The three steps of `dispatchBatch`. -/
inductive Step where
  | upsert
  | execute
  | submit
deriving DecidableEq, Repr

def Event.step? : Event → Option Step
  | .AddOrReuseOperation .. => some .upsert
  | .RunOperation .. => some .execute
  | .SubmitPinnedBatch .. => some .submit
  | _ => none

/-- The steps of `dispatchBatch` that were begun, in call order. -/
def steps (tr : List Event) : List Step := tr.filterMap Event.step?

/-- Number of streams open after each call of a trace, starting from `n` open streams: a
successful `DownloadBLOB` opens one, a `Close` releases one. -/
def openCounts : Nat → List Event → List Nat
  | _, [] => []
  | n, .DownloadBLOB _ (.ok _) :: tr => (n + 1) :: openCounts (n + 1) tr
  | n, .Close _ :: tr => (n - 1) :: openCounts (n - 1) tr
  | n, _ :: tr => n :: openCounts n tr

/-- The largest number of streams open at the same time during a trace. -/
def maxOpen (tr : List Event) : Nat := (openCounts 0 tr).foldl max 0

/-- The operation that `dispatchBatch` builds at lines 126-131. -/
def descriptor (bm : broadcastManager) (batch : Batch) : Operation :=
  addBatchBroadcastInputs
    (NewOperation bm.sharedstorage batch.Namespace batch.Payload.TX.ID
      .OpTypeSharedStorageBatchBroadcast) batch.ID

/-- A second dispatch of the same batch and pins, from the state the first one left. -/
def redispatch {σ : Type} (w : World σ) (bm : broadcastManager) (s : σ) (batch : Batch)
    (pins : List Bytes32) : Out σ :=
  dispatchBatch w bm (dispatchBatch w bm s batch pins).state batch pins

/-! ## The operation registry of the spec -/

/-- Natural key of an operation: (namespace, transaction reference, operation type). -/
def Operation.key (op : Operation) : String × UUID × OpType :=
  (op.Namespace, op.Transaction, op.Type_)

/-- Modelled from the spec: the operation registry (`internal/operations`) is missing from
the sources. `AddOrReuseOperation` is an "idempotent upsert by natural key": "if a record
with the same natural key already exists, the existing record is returned and reused - no
duplicate is created"; otherwise the record is inserted. -/
def upsert (store : List Operation) (op : Operation) : List Operation × Operation :=
  match store.find? (fun o => decide (o.key = op.key)) with
  | some existing => (store, existing)
  | none => (store ++ [op], op)

/-- A world over a store of operation records and a rest `τ`, whose
`AddOrReuseOperation` is the `upsert` of the spec and never fails, and whose
`RunOperation` and `SubmitPinnedBatch` are arbitrary functions that leave the set of
operation records alone. The other collaborators, which `dispatchBatch` does not call, do
nothing. -/
def registryWorld {τ : Type} (run : τ → PreparedOperation → τ × Option Err)
    (submit : τ → Batch → List Bytes32 → τ × Option Err) : World (List Operation × τ) where
  RegisterDispatcher := fun _ s _ _ _ _ _ => s
  RegisterHandler := fun _ s _ _ => s
  AddOrReuseOperation := fun _ s op => (((upsert s.1 op).1, s.2), (upsert s.1 op).2, none)
  RunOperation := fun _ s p => ((s.1, (run s.2 p).1), (run s.2 p).2)
  SubmitPinnedBatch := fun _ s b pins => ((s.1, (submit s.2 b pins).1), (submit s.2 b pins).2)
  DownloadBLOB := fun _ s _ => (s, .error (.ext "unused"))
  PublishData := fun _ s _ => (s, .error (.ext "unused"))
  UpdateData := fun _ s _ _ => (s, none)
  Close := fun s _ => s

/-! ## Concrete collaborators and inputs for the examples -/

/-- What the example collaborators do: which calls fail. -/
structure Script where
  failAdd : Bool := false
  failRun : Bool := false
  failSubmit : Bool := false
  failDownload : List String := []
  failPublish : List Nat := []
  failUpdate : List UUID := []

/-- Collaborators whose state counts the calls made. `DownloadBLOB` fails for the
references of the script and otherwise returns a fresh stream numbered by the state;
`PublishData` fails for the streams of the script and otherwise returns the reference
`"shared"`; `UpdateData` fails for the data IDs of the script. -/
def scripted (sc : Script) : World Nat where
  RegisterDispatcher := fun _ s _ _ _ _ _ => s + 1
  RegisterHandler := fun _ s _ _ => s + 1
  AddOrReuseOperation := fun _ s op =>
    (s + 1, op, if sc.failAdd then some (.ext "upsert failed") else none)
  RunOperation := fun _ s _ =>
    (s + 1, if sc.failRun then some (.ext "run failed") else none)
  SubmitPinnedBatch := fun _ s _ _ =>
    (s + 1, if sc.failSubmit then some (.ext "submit failed") else none)
  DownloadBLOB := fun _ s ref =>
    (s + 1, if ref ∈ sc.failDownload then .error (.ext "download failed") else .ok ⟨s⟩)
  PublishData := fun _ s r =>
    (s + 1, if r.id ∈ sc.failPublish then .error (.ext "upload failed") else .ok "shared")
  UpdateData := fun _ s id _ =>
    (s + 1, if id ∈ sc.failUpdate then some (.ext "update failed") else none)
  Close := fun s _ => s + 1

def exManager : broadcastManager :=
  { database := ⟨"db"⟩, identity := ⟨"im"⟩, data := ⟨"dm"⟩, blockchain := ⟨"bi"⟩,
    exchange := ⟨"dx"⟩, sharedstorage := ⟨"ipfs"⟩, batch := ⟨"ba"⟩,
    syncasync := some ⟨"sa"⟩, batchpin := some ⟨"bp"⟩, maxBatchPayloadLength := 1024,
    metrics := ⟨"mm"⟩, operations := ⟨"om"⟩ }

def exBatch : Batch :=
  { ID := "batch1", Namespace := "ns1", Author := "org1", Key := "0x1", Hash := "h1",
    Payload := { TX := { Type_ := .TransactionTypeBatchPin, ID := "tx1" },
                 Messages := ["m1", "m2"] } }

def exPins : List Bytes32 := ["p1", "p2"]

def exConfig : Config :=
  { BroadcastBatchPayloadLimit := 1024, BroadcastBatchSize := 200,
    BroadcastBatchTimeout := 500, BroadcastBatchAgentTimeout := 120000 }

/-- The constructor called with the nine checked collaborators present. -/
def exNew (sa bp : Option Handle) : NewOut Nat :=
  NewBroadcastManager (scripted {}) exConfig 0 (some ⟨"db"⟩) (some ⟨"im"⟩) (some ⟨"dm"⟩)
    (some ⟨"bi"⟩) (some ⟨"dx"⟩) (some ⟨"ipfs"⟩) (some ⟨"ba"⟩) sa bp (some ⟨"mm"⟩)
    (some ⟨"om"⟩)

/-- The manager that the constructor returns when only pin submission is absent. -/
def exManagerNoPin : broadcastManager := { exManager with batchpin := none }

/-- The registry of the spec with a `RunOperation` and a `SubmitPinnedBatch` that count
their calls and succeed. -/
def exRegistry : World (List Operation × Nat) :=
  registryWorld (fun t _ => (t + 1, none)) (fun t _ _ => (t + 1, none))

def pairA : DataAndBlob := { Data := ⟨"A"⟩, Blob := ⟨"hashA", "ref-A", ""⟩ }

def pairB : DataAndBlob := { Data := ⟨"B"⟩, Blob := ⟨"hashB", "ref-B", ""⟩ }

def pairC : DataAndBlob := { Data := ⟨"C"⟩, Blob := ⟨"hashC", "ref-C", ""⟩ }

/-! ## Lemmas on the loop of `publishBlobs` -/

theorem runDeferred_trace {σ : Type} (w : World σ) (rs : List Reader) :
    ∀ s, (runDeferred w s rs).2 = rs.map Event.Close := by
  induction rs with
  | nil => intro s; rfl
  | cons r rs ih => intro s; simp [runDeferred, ih]

/-- The loop makes no `Close` call, and the pending deferred calls are the streams
obtained so far, the last one first. -/
theorem publishLoop_deferred {σ : Type} (w : World σ) (bm : broadcastManager)
    (ds : List DataAndBlob) :
    ∀ s, closeCalls (publishLoop w bm s ds).trace = [] ∧
      (publishLoop w bm s ds).deferred = (downloaded (publishLoop w bm s ds).trace).reverse := by
  induction ds with
  | nil => intro s; simp [publishLoop, closeCalls, downloaded]
  | cons d ds ih =>
    intro s
    rcases hd : w.DownloadBLOB bm.exchange s d.Blob.PayloadRef with ⟨s1, e | r⟩
    · simp [publishLoop, hd, closeCalls, downloaded, Event.closed?, Event.downloaded?]
    · rcases hp : w.PublishData bm.sharedstorage s1 r with ⟨s2, e | ref⟩
      · simp [publishLoop, hd, hp, closeCalls, downloaded, Event.closed?, Event.downloaded?]
      · rcases hu : w.UpdateData bm.database s2 d.Data.ID (NewUpdate.Set "blob.public" ref)
          with ⟨s3, _ | e⟩
        · have h := ih s3
          simp only [closeCalls, downloaded] at h
          simp [publishLoop, hd, hp, hu, closeCalls, downloaded, Event.closed?,
            Event.downloaded?, h.1, h.2]
        · simp [publishLoop, hd, hp, hu, closeCalls, downloaded, Event.closed?,
            Event.downloaded?]

/-- The loop over `pre ++ rest`, when it succeeds on `pre`, is the loop over `pre`
followed by the loop over `rest`. -/
theorem publishLoop_append {σ : Type} (w : World σ) (bm : broadcastManager)
    (pre rest : List DataAndBlob) :
    ∀ s, (publishLoop w bm s pre).err = none →
      publishLoop w bm s (pre ++ rest) =
        { state := (publishLoop w bm (publishLoop w bm s pre).state rest).state,
          trace := (publishLoop w bm s pre).trace ++
            (publishLoop w bm (publishLoop w bm s pre).state rest).trace,
          deferred := (publishLoop w bm (publishLoop w bm s pre).state rest).deferred ++
            (publishLoop w bm s pre).deferred,
          err := (publishLoop w bm (publishLoop w bm s pre).state rest).err } := by
  induction pre with
  | nil => intro s _; simp [publishLoop]
  | cons d ds ih =>
    intro s h
    rcases hd : w.DownloadBLOB bm.exchange s d.Blob.PayloadRef with ⟨s1, e | r⟩
    · simp [publishLoop, hd] at h
    · rcases hp : w.PublishData bm.sharedstorage s1 r with ⟨s2, e | ref⟩
      · simp [publishLoop, hd, hp] at h
      · rcases hu : w.UpdateData bm.database s2 d.Data.ID (NewUpdate.Set "blob.public" ref)
          with ⟨s3, _ | e⟩
        · simp only [publishLoop, hd, hp, hu] at h
          simp [publishLoop, hd, hp, hu, ih s3 h]
        · simp [publishLoop, hd, hp, hu] at h

/-- What the loop has done when it succeeds on every pair: one `DownloadBLOB`, one
`PublishData` and one `UpdateData` call per pair, in list order, the update of a pair
setting `blob.public` to the reference returned by the upload of that pair. -/
theorem publishLoop_ok {σ : Type} (w : World σ) (bm : broadcastManager)
    (ds : List DataAndBlob) :
    ∀ s, (publishLoop w bm s ds).err = none →
      downloadCalls (publishLoop w bm s ds).trace = ds.map (fun d => d.Blob.PayloadRef) ∧
      publishCalls (publishLoop w bm s ds).trace = downloaded (publishLoop w bm s ds).trace ∧
      (downloaded (publishLoop w bm s ds).trace).length = ds.length ∧
      (publishedRefs (publishLoop w bm s ds).trace).length = ds.length ∧
      updateCalls (publishLoop w bm s ds).trace =
        List.zipWith (fun d ref => (d.Data.ID, NewUpdate.Set "blob.public" ref)) ds
          (publishedRefs (publishLoop w bm s ds).trace) := by
  induction ds with
  | nil =>
    intro s _
    simp [publishLoop, downloadCalls, publishCalls, downloaded, publishedRefs, updateCalls]
  | cons d ds ih =>
    intro s h
    rcases hd : w.DownloadBLOB bm.exchange s d.Blob.PayloadRef with ⟨s1, e | r⟩
    · simp [publishLoop, hd] at h
    · rcases hp : w.PublishData bm.sharedstorage s1 r with ⟨s2, e | ref⟩
      · simp [publishLoop, hd, hp] at h
      · rcases hu : w.UpdateData bm.database s2 d.Data.ID (NewUpdate.Set "blob.public" ref)
          with ⟨s3, _ | e⟩
        · simp only [publishLoop, hd, hp, hu] at h
          have h3 := ih s3 h
          simp only [downloadCalls, publishCalls, downloaded, publishedRefs, updateCalls]
            at h3
          simp [publishLoop, hd, hp, hu, downloadCalls, publishCalls, downloaded,
            publishedRefs, updateCalls, Event.downloadRef?, Event.publishArg?,
            Event.downloaded?, Event.publishedRef?, Event.updateArgs?, h3.1, h3.2.1,
            h3.2.2.1, h3.2.2.2.1, h3.2.2.2.2]
        · simp [publishLoop, hd, hp, hu] at h

/-- In every run of the loop: the references downloaded are an initial part of the
references of the pairs, every stream obtained is handed to `PublishData` once, the data
IDs updated are an initial part of the data IDs of the pairs, at most one call fails, and
an error returned comes from a failed call: it is the error of a failed `PublishData` or
`UpdateData` call, or the error of a failed `DownloadBLOB` call wrapped with
`MsgDownloadBlobFailed` and the reference. -/
theorem publishLoop_calls {σ : Type} (w : World σ) (bm : broadcastManager)
    (ds : List DataAndBlob) :
    ∀ s, downloadCalls (publishLoop w bm s ds).trace <+: ds.map (fun d => d.Blob.PayloadRef) ∧
      publishCalls (publishLoop w bm s ds).trace = downloaded (publishLoop w bm s ds).trace ∧
      (updateCalls (publishLoop w bm s ds).trace).map Prod.fst
        <+: ds.map (fun d => d.Data.ID) ∧
      (publishLoop w bm s ds).trace.countP Event.failed ≤ 1 ∧
      ∀ e, (publishLoop w bm s ds).err = some e →
        (∃ ref cause, Event.DownloadBLOB ref (.error cause) ∈ (publishLoop w bm s ds).trace ∧
          e = .wrap cause .MsgDownloadBlobFailed [ref]) ∨
        (∃ r, Event.PublishData r (.error e) ∈ (publishLoop w bm s ds).trace) ∨
        (∃ id u, Event.UpdateData id u (some e) ∈ (publishLoop w bm s ds).trace) := by
  induction ds with
  | nil =>
    intro s
    simp [publishLoop, downloadCalls, publishCalls, downloaded, updateCalls]
  | cons d ds ih =>
    intro s
    rcases hd : w.DownloadBLOB bm.exchange s d.Blob.PayloadRef with ⟨s1, e | r⟩
    · simp [publishLoop, hd, downloadCalls, publishCalls, downloaded, updateCalls,
        Event.downloadRef?, Event.publishArg?, Event.downloaded?, Event.updateArgs?,
        Event.failed, List.prefix_cons_inj]
      exact ⟨_, _, ⟨rfl, rfl⟩, rfl, rfl⟩
    · rcases hp : w.PublishData bm.sharedstorage s1 r with ⟨s2, e | ref⟩
      · simp [publishLoop, hd, hp, downloadCalls, publishCalls, downloaded, updateCalls,
          Event.downloadRef?, Event.publishArg?, Event.downloaded?, Event.updateArgs?,
          Event.failed, List.prefix_cons_inj]
      · rcases hu : w.UpdateData bm.database s2 d.Data.ID (NewUpdate.Set "blob.public" ref)
          with ⟨s3, _ | e⟩
        · have h3 := ih s3
          simp only [downloadCalls, publishCalls, downloaded, updateCalls] at h3
          obtain ⟨h31, h32, h33, h34, h35⟩ := h3
          simp only [publishLoop, hd, hp, hu, downloadCalls, publishCalls, downloaded,
            updateCalls]
          refine ⟨?_, ?_, ?_, ?_, ?_⟩
          · simpa [Event.downloadRef?, List.prefix_cons_inj] using h31
          · simpa [Event.publishArg?, Event.downloaded?] using h32
          · simpa [Event.updateArgs?, List.prefix_cons_inj] using h33
          · simpa [Event.failed, List.countP_cons] using h34
          · intro e he
            rcases h35 e he with ⟨ref', cause, hm, rfl⟩ | ⟨r', hm⟩ | ⟨id, u, hm⟩
            · exact Or.inl ⟨ref', cause, by simp [hm], rfl⟩
            · exact Or.inr (Or.inl ⟨r', by simp [hm]⟩)
            · exact Or.inr (Or.inr ⟨id, u, by simp [hm]⟩)
        · simp [publishLoop, hd, hp, hu, downloadCalls, publishCalls, downloaded, updateCalls,
            Event.downloadRef?, Event.publishArg?, Event.downloaded?, Event.updateArgs?,
            Event.failed, List.prefix_cons_inj]

/-- The observations of a loop are not changed by the `Close` calls that follow it. -/
theorem publishBlobs_observations {σ : Type} (w : World σ) (bm : broadcastManager) (s : σ)
    (ds : List DataAndBlob) :
    downloadCalls (publishBlobs w bm s ds).trace = downloadCalls (publishLoop w bm s ds).trace ∧
    downloaded (publishBlobs w bm s ds).trace = downloaded (publishLoop w bm s ds).trace ∧
    publishCalls (publishBlobs w bm s ds).trace = publishCalls (publishLoop w bm s ds).trace ∧
    publishedRefs (publishBlobs w bm s ds).trace
      = publishedRefs (publishLoop w bm s ds).trace ∧
    updateCalls (publishBlobs w bm s ds).trace = updateCalls (publishLoop w bm s ds).trace ∧
    (publishBlobs w bm s ds).trace.countP Event.failed
      = (publishLoop w bm s ds).trace.countP Event.failed ∧
    closeCalls (publishBlobs w bm s ds).trace = (publishLoop w bm s ds).deferred := by
  have hc := (publishLoop_deferred w bm ds s).1
  simp only [closeCalls] at hc
  simp [publishBlobs, runDeferred_trace, downloadCalls, downloaded, publishCalls,
    publishedRefs, updateCalls, closeCalls, List.filterMap_append, List.filterMap_map,
    List.countP_append, List.countP_map, hc, Function.comp_def, Event.downloadRef?,
    Event.downloaded?, Event.publishArg?, Event.publishedRef?, Event.updateArgs?,
    Event.closed?, Event.failed]

/-! ## Properties of `dispatchBatch` -/

/-- C1: the steps that `dispatchBatch` begins are an initial part of upsert, execute,
submit, in this order; a `RunOperation` call is made only after an `AddOrReuseOperation`
call that returned no error and a `SubmitPinnedBatch` call only after a `RunOperation` call
that returned no error; if `AddOrReuseOperation` returns an error, that error is returned
and neither `RunOperation` nor `SubmitPinnedBatch` is called; if `RunOperation` returns an
error, that error is returned and `SubmitPinnedBatch` is not called. -/
theorem dispatchBatch_steps_in_order {σ : Type} (w : World σ) (bm : broadcastManager)
    (s : σ) (batch : Batch) (pins : List Bytes32) :
    steps (dispatchBatch w bm s batch pins).trace <+: [Step.upsert, Step.execute, Step.submit] ∧
    (∀ p r, Event.RunOperation p r ∈ (dispatchBatch w bm s batch pins).trace →
      ∃ op, Event.AddOrReuseOperation op none ∈ (dispatchBatch w bm s batch pins).trace) ∧
    (∀ b ps r, Event.SubmitPinnedBatch b ps r ∈ (dispatchBatch w bm s batch pins).trace →
      ∃ p, Event.RunOperation p none ∈ (dispatchBatch w bm s batch pins).trace) ∧
    (∀ s1 op1 e,
      w.AddOrReuseOperation bm.operations s
        (addBatchBroadcastInputs
          (NewOperation bm.sharedstorage batch.Namespace batch.Payload.TX.ID
            .OpTypeSharedStorageBatchBroadcast) batch.ID) = (s1, op1, some e) →
      (dispatchBatch w bm s batch pins).result = .returned (some e) ∧
      runCalls (dispatchBatch w bm s batch pins).trace = [] ∧
      submitCalls (dispatchBatch w bm s batch pins).trace = []) ∧
    (∀ s1 op1 s2 e,
      w.AddOrReuseOperation bm.operations s
        (addBatchBroadcastInputs
          (NewOperation bm.sharedstorage batch.Namespace batch.Payload.TX.ID
            .OpTypeSharedStorageBatchBroadcast) batch.ID) = (s1, op1, none) →
      w.RunOperation bm.operations s1 (opBatchBroadcast op1 batch) = (s2, some e) →
      (dispatchBatch w bm s batch pins).result = .returned (some e) ∧
      submitCalls (dispatchBatch w bm s batch pins).trace = []) := by
  unfold dispatchBatch
  dsimp only
  rcases hadd : w.AddOrReuseOperation bm.operations s _ with ⟨s1, op1, _ | e1⟩
  · rcases hrun : w.RunOperation bm.operations s1 (opBatchBroadcast op1 batch) with ⟨s2, _ | e2⟩
    · cases hbp : bm.batchpin with
      | none =>
        simp [steps, Event.step?, runCalls, submitCalls, Event.runOp?, Event.submitArgs?, hrun]
        intro a b c d h1 h2 h3
        subst h1 h2
        rw [hrun] at h3
        simp at h3
      | some bp =>
        simp [steps, Event.step?, runCalls, submitCalls, Event.runOp?, Event.submitArgs?, hrun]
        intro a b c d h1 h2 h3
        subst h1 h2
        rw [hrun] at h3
        simp at h3
    · simp [steps, Event.step?, runCalls, submitCalls, Event.runOp?, Event.submitArgs?, hrun]
      intro a b c d h1 h2 h3
      subst h1 h2
      rw [hrun] at h3
      simp at h3
      exact h3.2
  · simp [steps, Event.step?, runCalls, submitCalls, Event.runOp?, Event.submitArgs?]

/-- Witness of C1 at a world where `RunOperation` fails. -/
theorem dispatchBatch_steps_in_order_witness :
    (dispatchBatch (scripted { failRun := true }) exManager 0 exBatch exPins).result
        = .returned (some (.ext "run failed")) ∧
    submitCalls (dispatchBatch (scripted { failRun := true }) exManager 0 exBatch exPins).trace
        = [] :=
  (dispatchBatch_steps_in_order (scripted { failRun := true }) exManager 0 exBatch
    exPins).2.2.2.2 1 _ 2 (.ext "run failed") rfl rfl

/-- On a manager whose pin-submission collaborator is present: when `AddOrReuseOperation`
and `RunOperation` both succeed, `dispatchBatch` calls each of `AddOrReuseOperation`,
`RunOperation` and `SubmitPinnedBatch` exactly once, in this order, hands
`SubmitPinnedBatch` the batch and the pins it was given, and returns exactly what
`SubmitPinnedBatch` returned. -/
theorem dispatchBatch_success {σ : Type} (w : World σ) (bm : broadcastManager) (bp : Handle)
    (s s1 s2 s3 : σ) (op1 : Operation) (r : Option Err) (batch : Batch) (pins : List Bytes32)
    (hbp : bm.batchpin = some bp)
    (hadd : w.AddOrReuseOperation bm.operations s
      (addBatchBroadcastInputs
        (NewOperation bm.sharedstorage batch.Namespace batch.Payload.TX.ID
          .OpTypeSharedStorageBatchBroadcast) batch.ID) = (s1, op1, none))
    (hrun : w.RunOperation bm.operations s1 (opBatchBroadcast op1 batch) = (s2, none))
    (hsub : w.SubmitPinnedBatch bp s2 batch pins = (s3, r)) :
    steps (dispatchBatch w bm s batch pins).trace = [Step.upsert, Step.execute, Step.submit] ∧
    (addCalls (dispatchBatch w bm s batch pins).trace).length = 1 ∧
    (runCalls (dispatchBatch w bm s batch pins).trace).length = 1 ∧
    submitCalls (dispatchBatch w bm s batch pins).trace = [(batch, pins)] ∧
    (dispatchBatch w bm s batch pins).result = .returned r := by
  simp [dispatchBatch, hadd, hrun, hbp, hsub, steps, Event.step?, addCalls, runCalls,
    submitCalls, Event.addOp?, Event.runOp?, Event.submitArgs?]

/-- The successful dispatch at namespace `ns1`, transaction `tx1` and pins `[p1, p2]`. -/
theorem dispatchBatch_success_witness :
    submitCalls (dispatchBatch (scripted {}) exManager 0 exBatch exPins).trace
        = [(exBatch, ["p1", "p2"])] ∧
    (dispatchBatch (scripted {}) exManager 0 exBatch exPins).result = .returned none :=
  let h := dispatchBatch_success (scripted {}) exManager ⟨"bp"⟩ 0 1 2 3 _ none exBatch exPins
    rfl rfl rfl rfl
  ⟨h.2.2.2.1, h.2.2.2.2⟩

/-- C4 at the manager that `NewBroadcastManager` returns, without an error, when only pin
submission is absent: `AddOrReuseOperation` and `RunOperation` both succeed, yet
`dispatchBatch` makes no `SubmitPinnedBatch` call and returns nothing: the call through the
nil `batchpin` of line 139 panics. -/
theorem dispatchBatch_nil_batchpin :
    (exNew (some ⟨"sa"⟩) none).manager = some exManagerNoPin ∧
    (exNew (some ⟨"sa"⟩) none).err = none ∧
    (dispatchBatch (scripted {}) exManagerNoPin 0 exBatch exPins).trace =
      [ .AddOrReuseOperation (descriptor exManagerNoPin exBatch) none,
        .RunOperation (opBatchBroadcast (descriptor exManagerNoPin exBatch) exBatch) none ] ∧
    submitCalls (dispatchBatch (scripted {}) exManagerNoPin 0 exBatch exPins).trace = [] ∧
    (dispatchBatch (scripted {}) exManagerNoPin 0 exBatch exPins).result = .panicked := by
  decide

/-! ## Properties of `NewBroadcastManager` -/

/-- The guard of line 78: when one of the nine collaborators that it checks (persistence,
identity resolution, data staging, ledger, transport, shared storage, batch scheduler,
metrics, operation tracking) is absent, `NewBroadcastManager` returns a nil manager with
the initialization error and calls neither `RegisterDispatcher` nor `RegisterHandler`. -/
theorem NewBroadcastManager_checked_nil {σ : Type} (w : World σ) (cfg : Config) (s : σ)
    (di im dm bi dx si ba sa bp mm om : Option Handle)
    (h : di = none ∨ im = none ∨ dm = none ∨ bi = none ∨ dx = none ∨ si = none ∨
      ba = none ∨ mm = none ∨ om = none) :
    (NewBroadcastManager w cfg s di im dm bi dx si ba sa bp mm om).manager = none ∧
    (NewBroadcastManager w cfg s di im dm bi dx si ba sa bp mm om).err
      = some (.new .MsgInitializationNilDepError []) ∧
    (NewBroadcastManager w cfg s di im dm bi dx si ba sa bp mm om).trace = [] ∧
    (NewBroadcastManager w cfg s di im dm bi dx si ba sa bp mm om).state = s := by
  unfold NewBroadcastManager
  split
  · simp at h
  · simp

/-- The guard of line 78 with the batch scheduler absent. -/
theorem NewBroadcastManager_checked_nil_witness :
    (NewBroadcastManager (scripted {}) exConfig 0 (some ⟨"db"⟩) (some ⟨"im"⟩) (some ⟨"dm"⟩)
      (some ⟨"bi"⟩) (some ⟨"dx"⟩) (some ⟨"ipfs"⟩) none (some ⟨"sa"⟩) (some ⟨"bp"⟩)
      (some ⟨"mm"⟩) (some ⟨"om"⟩)).trace = [] :=
  (NewBroadcastManager_checked_nil (scripted {}) exConfig 0 (some ⟨"db"⟩) (some ⟨"im"⟩)
    (some ⟨"dm"⟩) (some ⟨"bi"⟩) (some ⟨"dx"⟩) (some ⟨"ipfs"⟩) none (some ⟨"sa"⟩)
    (some ⟨"bp"⟩) (some ⟨"mm"⟩) (some ⟨"om"⟩)
    (Or.inr (Or.inr (Or.inr (Or.inr (Or.inr (Or.inr (Or.inl rfl)))))))).2.2.1

/-- C2 at the two collaborators that the guard of line 78 leaves out: with the
synchronous-wait bridge absent and the ten other collaborators present, and likewise with
pin submission absent, `NewBroadcastManager` returns a manager and no error, and has called
`RegisterDispatcher` once and `RegisterHandler` once. -/
theorem NewBroadcastManager_unchecked_nil :
    ((exNew none (some ⟨"bp"⟩)).manager ≠ none ∧
      (exNew none (some ⟨"bp"⟩)).err = none ∧
      (exNew none (some ⟨"bp"⟩)).trace.countP Event.isRegisterDispatcher = 1 ∧
      (exNew none (some ⟨"bp"⟩)).trace.countP Event.isRegisterHandler = 1) ∧
    ((exNew (some ⟨"sa"⟩) none).manager ≠ none ∧
      (exNew (some ⟨"sa"⟩) none).err = none ∧
      (exNew (some ⟨"sa"⟩) none).trace.countP Event.isRegisterDispatcher = 1 ∧
      (exNew (some ⟨"sa"⟩) none).trace.countP Event.isRegisterHandler = 1) := by
  decide

/-- C9: when the nine checked collaborators are present (whether or not the other two
are), `NewBroadcastManager` returns a manager holding the collaborators it was given and
no error, and has made exactly two calls: first `RegisterDispatcher` on the batch
scheduler, with the name "pinned_broadcast", the transaction type batch-pin, the message
types broadcast, definition, transfer-broadcast, the callback of the returned manager and
the options read from the configuration, then `RegisterHandler` on the operation manager,
with the returned manager and the single operation type shared-storage-batch-broadcast. -/
theorem NewBroadcastManager_registers {σ : Type} (w : World σ) (cfg : Config) (s : σ)
    (di im dm bi dx si ba mm om : Handle) (sa bp : Option Handle) :
    ∃ bm : broadcastManager,
      bm = { database := di, identity := im, data := dm, blockchain := bi, exchange := dx,
             sharedstorage := si, batch := ba, syncasync := sa, batchpin := bp,
             maxBatchPayloadLength := cfg.BroadcastBatchPayloadLimit,
             metrics := mm, operations := om } ∧
      (NewBroadcastManager w cfg s (some di) (some im) (some dm) (some bi) (some dx)
        (some si) (some ba) sa bp (some mm) (some om)).manager = some bm ∧
      (NewBroadcastManager w cfg s (some di) (some im) (some dm) (some bi) (some dx)
        (some si) (some ba) sa bp (some mm) (some om)).err = none ∧
      (NewBroadcastManager w cfg s (some di) (some im) (some dm) (some bi) (some dx)
        (some si) (some ba) sa bp (some mm) (some om)).trace =
        [ Event.RegisterDispatcher "pinned_broadcast" .TransactionTypeBatchPin
            [.MessageTypeBroadcast, .MessageTypeDefinition, .MessageTypeTransferBroadcast] bm
            { RequiresSharedDataPayloadRefs := true,
              BatchMaxSize := cfg.BroadcastBatchSize,
              BatchMaxBytes := cfg.BroadcastBatchPayloadLimit,
              BatchTimeout := cfg.BroadcastBatchTimeout,
              DisposeTimeout := cfg.BroadcastBatchAgentTimeout },
          Event.RegisterHandler bm [.OpTypeSharedStorageBatchBroadcast] ] ∧
      (NewBroadcastManager w cfg s (some di) (some im) (some dm) (some bi) (some dx)
        (some si) (some ba) sa bp (some mm) (some om)).state =
        w.RegisterHandler om
          (w.RegisterDispatcher ba s "pinned_broadcast" .TransactionTypeBatchPin
            [.MessageTypeBroadcast, .MessageTypeDefinition, .MessageTypeTransferBroadcast] bm
            { RequiresSharedDataPayloadRefs := true,
              BatchMaxSize := cfg.BroadcastBatchSize,
              BatchMaxBytes := cfg.BroadcastBatchPayloadLimit,
              BatchTimeout := cfg.BroadcastBatchTimeout,
              DisposeTimeout := cfg.BroadcastBatchAgentTimeout })
          bm [.OpTypeSharedStorageBatchBroadcast] :=
  ⟨_, rfl, rfl, rfl, rfl, rfl⟩

/-! ## Properties of `publishBlobs` -/

/-- C3: for pairs `pre ++ d :: post`, when the loop succeeds on every pair of `pre` (its
download, upload and update all succeed), the download of `d` succeeds and the upload of
`d` fails with `e`, then `publishBlobs` returns `e`; it has called `UpdateData` exactly
once for each pair of `pre`, in list order, with the data ID of the pair and an update
setting `blob.public` to the reference returned by the upload of that pair, and not for
`d`; and its `DownloadBLOB` and `PublishData` calls are those of `pre` and `d`, so none is
made for a pair of `post`. -/
theorem publishBlobs_upload_failure {σ : Type} (w : World σ) (bm : broadcastManager) (s : σ)
    (pre post : List DataAndBlob) (d : DataAndBlob) (s1 s2 : σ) (r : Reader) (e : Err)
    (hpre : (publishLoop w bm s pre).err = none)
    (hdl : w.DownloadBLOB bm.exchange (publishLoop w bm s pre).state d.Blob.PayloadRef
      = (s1, .ok r))
    (hup : w.PublishData bm.sharedstorage s1 r = (s2, .error e)) :
    (publishBlobs w bm s (pre ++ d :: post)).result = .returned (some e) ∧
    (publishedRefs (publishBlobs w bm s (pre ++ d :: post)).trace).length = pre.length ∧
    updateCalls (publishBlobs w bm s (pre ++ d :: post)).trace =
      List.zipWith (fun p ref => (p.Data.ID, NewUpdate.Set "blob.public" ref)) pre
        (publishedRefs (publishBlobs w bm s (pre ++ d :: post)).trace) ∧
    (updateCalls (publishBlobs w bm s (pre ++ d :: post)).trace).length = pre.length ∧
    downloadCalls (publishBlobs w bm s (pre ++ d :: post)).trace =
      (pre ++ [d]).map (fun p => p.Blob.PayloadRef) ∧
    (publishCalls (publishBlobs w bm s (pre ++ d :: post)).trace).length = pre.length + 1 := by
  have happ := publishLoop_append w bm pre (d :: post) s hpre
  have hrest : publishLoop w bm (publishLoop w bm s pre).state (d :: post) =
      { state := s2,
        trace := [.DownloadBLOB d.Blob.PayloadRef (.ok r), .PublishData r (.error e)],
        deferred := [r], err := some e } := by
    simp [publishLoop, hdl, hup]
  rw [hrest] at happ
  obtain ⟨ho1, ho2, ho3, ho4, ho5⟩ := publishLoop_ok w bm pre s hpre
  obtain ⟨hb1, hb2, hb3, hb4, hb5, -, -⟩ := publishBlobs_observations w bm s (pre ++ d :: post)
  rw [hb1, hb3, hb4, hb5, happ]
  simp only [downloadCalls, downloaded, publishCalls, publishedRefs, updateCalls] at *
  have hres : (publishBlobs w bm s (pre ++ d :: post)).result = .returned (some e) := by
    simp [publishBlobs, happ]
  refine ⟨hres, ?_, ?_, ?_, ?_, ?_⟩
  · simpa [List.filterMap_append, Event.publishedRef?] using ho4
  · simpa [List.filterMap_append, Event.publishedRef?, Event.updateArgs?] using ho5
  · simp [List.filterMap_append, Event.updateArgs?, ho5, ho4]
  · simp [List.filterMap_append, Event.downloadRef?, ho1]
  · simp [List.filterMap_append, Event.publishArg?, ho2, ho3]

/-- Witness of C3 at the pairs `[A, B, C]` with the upload of `B` failing. -/
theorem publishBlobs_upload_failure_witness :
    (publishBlobs (scripted { failPublish := [3] }) exManager 0
      [pairA, pairB, pairC]).result = .returned (some (.ext "upload failed")) ∧
    updateCalls (publishBlobs (scripted { failPublish := [3] }) exManager 0
      [pairA, pairB, pairC]).trace = [("A", ⟨[("blob.public", "shared")]⟩)] ∧
    downloadCalls (publishBlobs (scripted { failPublish := [3] }) exManager 0
      [pairA, pairB, pairC]).trace = ["ref-A", "ref-B"] :=
  let h := publishBlobs_upload_failure (scripted { failPublish := [3] }) exManager 0
    [pairA] [pairC] pairB 4 5 ⟨3⟩ (.ext "upload failed") (by decide) (by decide) (by decide)
  ⟨h.1, h.2.2.1, h.2.2.2.2.1⟩

/-- C5 at two pairs whose steps all succeed: the stream of the first pair is still open
when `DownloadBLOB` is called for the second pair, both streams are open at the same time,
and they are closed only when `publishBlobs` returns, the last one first. -/
theorem publishBlobs_streams_overlap :
    (publishBlobs (scripted {}) exManager 0 [pairA, pairB]).trace =
      [ .DownloadBLOB "ref-A" (.ok ⟨0⟩), .PublishData ⟨0⟩ (.ok "shared"),
        .UpdateData "A" ⟨[("blob.public", "shared")]⟩ none,
        .DownloadBLOB "ref-B" (.ok ⟨3⟩), .PublishData ⟨3⟩ (.ok "shared"),
        .UpdateData "B" ⟨[("blob.public", "shared")]⟩ none,
        .Close ⟨3⟩, .Close ⟨0⟩ ] ∧
    maxOpen (publishBlobs (scripted {}) exManager 0 [pairA, pairB]).trace = 2 := by
  decide

/-- C7 (amended): an error returned by `publishBlobs` comes from the one collaborator call
that failed: it is exactly the error of the failed `PublishData` or `UpdateData` call, or
it is the error of the failed `DownloadBLOB` call wrapped with `MsgDownloadBlobFailed` and
the reference; and no call is retried: the `DownloadBLOB` references and the `UpdateData`
data IDs are initial parts of those of the pairs, and every stream obtained is handed to
`PublishData` once. -/
theorem publishBlobs_error_origin {σ : Type} (w : World σ) (bm : broadcastManager) (s : σ)
    (ds : List DataAndBlob) :
    (∀ e, (publishBlobs w bm s ds).result = .returned (some e) →
      (∃ ref cause, Event.DownloadBLOB ref (.error cause) ∈ (publishBlobs w bm s ds).trace ∧
        e = .wrap cause .MsgDownloadBlobFailed [ref]) ∨
      (∃ r, Event.PublishData r (.error e) ∈ (publishBlobs w bm s ds).trace) ∨
      (∃ id u, Event.UpdateData id u (some e) ∈ (publishBlobs w bm s ds).trace)) ∧
    (publishBlobs w bm s ds).trace.countP Event.failed ≤ 1 ∧
    downloadCalls (publishBlobs w bm s ds).trace <+: ds.map (fun d => d.Blob.PayloadRef) ∧
    publishCalls (publishBlobs w bm s ds).trace = downloaded (publishBlobs w bm s ds).trace ∧
    (updateCalls (publishBlobs w bm s ds).trace).map Prod.fst
      <+: ds.map (fun d => d.Data.ID) := by
  obtain ⟨hl1, hl2, hl3, hl4, hl5⟩ := publishLoop_calls w bm ds s
  obtain ⟨hb1, hb2, hb3, -, hb5, hb6, -⟩ := publishBlobs_observations w bm s ds
  rw [hb1, hb2, hb3, hb5, hb6]
  refine ⟨?_, hl4, hl1, hl2, hl3⟩
  intro e he
  have he' : (publishLoop w bm s ds).err = some e := by
    simpa [publishBlobs] using he
  have hsub : ∀ ev, ev ∈ (publishLoop w bm s ds).trace → ev ∈ (publishBlobs w bm s ds).trace := by
    intro ev hev
    simp [publishBlobs, hev]
  rcases hl5 e he' with ⟨ref, cause, hm, rfl⟩ | ⟨r, hm⟩ | ⟨id, u, hm⟩
  · exact Or.inl ⟨ref, cause, hsub _ hm, rfl⟩
  · exact Or.inr (Or.inl ⟨r, hsub _ hm⟩)
  · exact Or.inr (Or.inr ⟨id, u, hsub _ hm⟩)

/-- Witness of C7 (amended) at a failing `UpdateData`. -/
theorem publishBlobs_error_origin_witness :
    (∃ ref cause, Event.DownloadBLOB ref (.error cause) ∈
        (publishBlobs (scripted { failUpdate := ["A"] }) exManager 0 [pairA, pairB]).trace ∧
        Err.ext "update failed" = .wrap cause .MsgDownloadBlobFailed [ref]) ∨
    (∃ r, Event.PublishData r (.error (.ext "update failed")) ∈
        (publishBlobs (scripted { failUpdate := ["A"] }) exManager 0 [pairA, pairB]).trace) ∨
    (∃ id u, Event.UpdateData id u (some (.ext "update failed")) ∈
        (publishBlobs (scripted { failUpdate := ["A"] }) exManager 0 [pairA, pairB]).trace) :=
  (publishBlobs_error_origin (scripted { failUpdate := ["A"] }) exManager 0
    [pairA, pairB]).1 (.ext "update failed") (by decide)

/-- C7 fails as stated: when `DownloadBLOB` fails, the error `publishBlobs` returns is not
the error `DownloadBLOB` returned but that error wrapped. -/
theorem publishBlobs_download_error_wrapped :
    Event.DownloadBLOB "ref-A" (.error (.ext "download failed")) ∈
      (publishBlobs (scripted { failDownload := ["ref-A"] }) exManager 0 [pairA]).trace ∧
    (publishBlobs (scripted { failDownload := ["ref-A"] }) exManager 0 [pairA]).result =
      .returned (some (.wrap (.ext "download failed") .MsgDownloadBlobFailed ["ref-A"])) ∧
    (publishBlobs (scripted { failDownload := ["ref-A"] }) exManager 0 [pairA]).result ≠
      .returned (some (.ext "download failed")) := by
  decide

/-- C8 (amended): for pairs `pre ++ d :: post` on which the loop succeeds on `pre`: if the
download of `d` fails, `publishBlobs` returns the download error wrapped with
`MsgDownloadBlobFailed` and the payload reference of `d`, an error that carries this
reference; if the upload of `d` fails, `publishBlobs` returns the error of the upload as
it is, so that it carries the reference only when the upload error itself does. -/
theorem publishBlobs_transfer_error {σ : Type} (w : World σ) (bm : broadcastManager) (s : σ)
    (pre post : List DataAndBlob) (d : DataAndBlob)
    (hpre : (publishLoop w bm s pre).err = none) :
    (∀ s1 e,
      w.DownloadBLOB bm.exchange (publishLoop w bm s pre).state d.Blob.PayloadRef
        = (s1, .error e) →
      (publishBlobs w bm s (pre ++ d :: post)).result =
        .returned (some (.wrap e .MsgDownloadBlobFailed [d.Blob.PayloadRef])) ∧
      (Err.wrap e .MsgDownloadBlobFailed [d.Blob.PayloadRef]).carries d.Blob.PayloadRef) ∧
    (∀ s1 r s2 e,
      w.DownloadBLOB bm.exchange (publishLoop w bm s pre).state d.Blob.PayloadRef
        = (s1, .ok r) →
      w.PublishData bm.sharedstorage s1 r = (s2, .error e) →
      (publishBlobs w bm s (pre ++ d :: post)).result = .returned (some e)) := by
  have happ := publishLoop_append w bm pre (d :: post) s hpre
  constructor
  · intro s1 e hdl
    have hrest : (publishLoop w bm (publishLoop w bm s pre).state (d :: post)).err =
        some (.wrap e .MsgDownloadBlobFailed [d.Blob.PayloadRef]) := by
      simp [publishLoop, hdl]
    constructor
    · simp [publishBlobs, happ, hrest]
    · simp [Err.carries, Err.inserts]
  · intro s1 r s2 e hdl hup
    have hrest : (publishLoop w bm (publishLoop w bm s pre).state (d :: post)).err =
        some e := by
      simp [publishLoop, hdl, hup]
    simp [publishBlobs, happ, hrest]

/-- Witness of C8 (amended) at the pairs `[A, B]` with the download of `B` failing. -/
theorem publishBlobs_transfer_error_witness :
    (publishBlobs (scripted { failDownload := ["ref-B"] }) exManager 0
      [pairA, pairB]).result =
      .returned (some (.wrap (.ext "download failed") .MsgDownloadBlobFailed ["ref-B"])) ∧
    (Err.wrap (.ext "download failed") .MsgDownloadBlobFailed ["ref-B"]).carries "ref-B" :=
  (publishBlobs_transfer_error (scripted { failDownload := ["ref-B"] }) exManager 0
    [pairA] [] pairB (by decide)).1 4 (.ext "download failed") (by decide)

/-- C8 fails as stated: when `PublishData` fails, the error `publishBlobs` returns is the
upload error as it is, which does not carry the payload reference of the pair. -/
theorem publishBlobs_upload_error_bare :
    Event.PublishData ⟨0⟩ (.error (.ext "upload failed")) ∈
      (publishBlobs (scripted { failPublish := [0] }) exManager 0 [pairA]).trace ∧
    (publishBlobs (scripted { failPublish := [0] }) exManager 0 [pairA]).result =
      .returned (some (.ext "upload failed")) ∧
    ¬ (Err.ext "upload failed").carries pairA.Blob.PayloadRef := by
  decide

/-- C10: when `publishBlobs` returns, the streams on which `Close` was called are exactly
the streams returned by the successful `DownloadBLOB` calls of this invocation, each
closed once, the last obtained first; so there are as many `Close` calls as successful
`DownloadBLOB` calls, none for an empty list and none when the first download fails. -/
theorem publishBlobs_closes_downloaded {σ : Type} (w : World σ) (bm : broadcastManager)
    (s : σ) (ds : List DataAndBlob) :
    closeCalls (publishBlobs w bm s ds).trace
      = (downloaded (publishBlobs w bm s ds).trace).reverse ∧
    (closeCalls (publishBlobs w bm s ds).trace).Perm
      (downloaded (publishBlobs w bm s ds).trace) ∧
    (closeCalls (publishBlobs w bm s ds).trace).length
      = (downloaded (publishBlobs w bm s ds).trace).length ∧
    closeCalls (publishBlobs w bm s []).trace = [] ∧
    (∀ d rest s1 e, ds = d :: rest →
      w.DownloadBLOB bm.exchange s d.Blob.PayloadRef = (s1, .error e) →
      closeCalls (publishBlobs w bm s ds).trace = []) := by
  obtain ⟨-, hb2, -, -, -, -, hb7⟩ := publishBlobs_observations w bm s ds
  have hd := (publishLoop_deferred w bm ds s).2
  have hrev : closeCalls (publishBlobs w bm s ds).trace
      = (downloaded (publishBlobs w bm s ds).trace).reverse := by
    rw [hb7, hb2, hd]
  refine ⟨hrev, ?_, ?_, ?_, ?_⟩
  · rw [hrev]; exact List.reverse_perm _
  · rw [hrev]; simp
  · simp [publishBlobs, publishLoop, runDeferred, closeCalls]
  · intro d rest s1 e hds hdl
    subst hds
    rw [hb7]
    simp [publishLoop, hdl]

/-- Witness of C10 with the first download failing. -/
theorem publishBlobs_closes_downloaded_witness :
    closeCalls (publishBlobs (scripted { failDownload := ["ref-A"] }) exManager 0
      [pairA, pairB]).trace = [] :=
  (publishBlobs_closes_downloaded (scripted { failDownload := ["ref-A"] }) exManager 0
    [pairA, pairB]).2.2.2.2 pairA [pairB] 1 (.ext "download failed") rfl (by decide)

/-! ## Retried dispatch against the operation registry of the spec -/

/-- A second upsert of the same operation changes nothing and returns the record of the
first. -/
theorem upsert_idem (store : List Operation) (op : Operation) :
    upsert (upsert store op).1 op = ((upsert store op).1, (upsert store op).2) := by
  unfold upsert
  cases h : store.find? (fun o => decide (o.key = op.key)) with
  | some existing => simp [h]
  | none => simp [List.find?_append, h]

/-- After an upsert into a store with at most one record of the key, the store has exactly
one record of the key. -/
theorem upsert_count (store : List Operation) (op : Operation)
    (hinv : store.countP (fun o => decide (o.key = op.key)) ≤ 1) :
    (upsert store op).1.countP (fun o => decide (o.key = op.key)) = 1 := by
  unfold upsert
  cases h : store.find? (fun o => decide (o.key = op.key)) with
  | some existing =>
    have hm := List.mem_of_find?_eq_some h
    have hp := List.find?_some h
    have : 0 < store.countP (fun o => decide (o.key = op.key)) :=
      List.countP_pos_iff.mpr ⟨existing, hm, hp⟩
    simp only
    omega
  | none =>
    have h0 : store.countP (fun o => decide (o.key = op.key)) = 0 := by
      rw [List.countP_eq_zero]
      intro a ha
      exact List.find?_eq_none.mp h a ha
    simp [List.countP_append, h0]

/-- The operation that `dispatchBatch` hands to `AddOrReuseOperation` has the name of the
shared-storage plugin, the namespace of the batch, the transaction reference of the batch,
the type shared-storage-batch-broadcast and the input payload made of the batch ID,
whatever the collaborators, the state and the pins are. Against the registry of the spec,
starting from a store with at most one record of this natural key, the store has exactly
one such record after a first dispatch and is unchanged by a second dispatch of the same
batch. On a manager whose pin-submission collaborator is present, when `RunOperation`
succeeds in both dispatches, the second one makes one `AddOrReuseOperation`, one
`RunOperation` and one `SubmitPinnedBatch` call with the same arguments as the first. -/
theorem dispatchBatch_retry {τ : Type} (run : τ → PreparedOperation → τ × Option Err)
    (submit : τ → Batch → List Bytes32 → τ × Option Err) (bm : broadcastManager)
    (store : List Operation) (t : τ) (batch : Batch) (pins : List Bytes32)
    (hinv : store.countP (fun o => decide (o.key = (descriptor bm batch).key)) ≤ 1) :
    (∀ (σ : Type) (w : World σ) (s : σ) (pins1 : List Bytes32),
      addCalls (dispatchBatch w bm s batch pins1).trace =
        [{ Plugin := bm.sharedstorage.name, Namespace := batch.Namespace,
           Transaction := batch.Payload.TX.ID, Type_ := .OpTypeSharedStorageBatchBroadcast,
           Status := .Pending, Input := [("id", batch.ID)] }]) ∧
    (dispatchBatch (registryWorld run submit) bm (store, t) batch pins).state.1.countP
      (fun o => decide (o.key = (descriptor bm batch).key)) = 1 ∧
    (redispatch (registryWorld run submit) bm (store, t) batch pins).state.1 =
      (dispatchBatch (registryWorld run submit) bm (store, t) batch pins).state.1 ∧
    (∀ bp t1 t2 t3 r1,
      bm.batchpin = some bp →
      run t (opBatchBroadcast (upsert store (descriptor bm batch)).2 batch) = (t1, none) →
      submit t1 batch pins = (t2, r1) →
      run t2 (opBatchBroadcast (upsert store (descriptor bm batch)).2 batch) = (t3, none) →
      steps (redispatch (registryWorld run submit) bm (store, t) batch pins).trace
        = [Step.upsert, Step.execute, Step.submit] ∧
      addCalls (redispatch (registryWorld run submit) bm (store, t) batch pins).trace
        = addCalls (dispatchBatch (registryWorld run submit) bm (store, t) batch pins).trace ∧
      runCalls (redispatch (registryWorld run submit) bm (store, t) batch pins).trace
        = runCalls (dispatchBatch (registryWorld run submit) bm (store, t) batch pins).trace ∧
      (runCalls (redispatch (registryWorld run submit) bm (store, t) batch pins).trace).length
        = 1 ∧
      submitCalls (redispatch (registryWorld run submit) bm (store, t) batch pins).trace
        = [(batch, pins)] ∧
      submitCalls (dispatchBatch (registryWorld run submit) bm (store, t) batch pins).trace
        = [(batch, pins)]) := by
  have hstate : ∀ (st : List Operation × τ),
      (dispatchBatch (registryWorld run submit) bm st batch pins).state.1
        = (upsert st.1 (descriptor bm batch)).1 := by
    intro st
    rcases hr : run st.2 (opBatchBroadcast (upsert st.1 (descriptor bm batch)).2 batch)
      with ⟨t1, _ | e⟩ <;>
    simp only [descriptor] at hr <;>
    cases hb : bm.batchpin <;>
    simp [dispatchBatch, registryWorld, descriptor, hb, hr]
  have hidem := upsert_idem store (descriptor bm batch)
  refine ⟨?_, ?_, ?_, ?_⟩
  · intro σ w s pins1
    unfold dispatchBatch
    dsimp only
    rcases hadd : w.AddOrReuseOperation bm.operations s _ with ⟨s1, op1, _ | e1⟩
    · rcases hrun : w.RunOperation bm.operations s1 (opBatchBroadcast op1 batch)
        with ⟨s2, _ | e2⟩
      · cases hb : bm.batchpin <;>
        simp [hrun, addCalls, Event.addOp?, addBatchBroadcastInputs, NewOperation]
      · simp [hrun, addCalls, Event.addOp?, addBatchBroadcastInputs, NewOperation]
    · simp [addCalls, Event.addOp?, addBatchBroadcastInputs, NewOperation]
  · rw [hstate]
    exact upsert_count store (descriptor bm batch) hinv
  · unfold redispatch
    rw [hstate, hstate, hidem]
  · intro bp t1 t2 t3 r1 hbp h1 hs h2
    simp only [descriptor] at h1 h2 hidem
    have hfirst : dispatchBatch (registryWorld run submit) bm (store, t) batch pins =
        { state := ((upsert store (descriptor bm batch)).1, t2),
          trace := [.AddOrReuseOperation (descriptor bm batch) none,
                    .RunOperation
                      (opBatchBroadcast (upsert store (descriptor bm batch)).2 batch) none,
                    .SubmitPinnedBatch batch pins r1],
          result := .returned r1 } := by
      simp [dispatchBatch, registryWorld, descriptor, hbp, h1, hs]
    rcases hs2 : submit t3 batch pins with ⟨t4, r2⟩
    have hsecond : redispatch (registryWorld run submit) bm (store, t) batch pins =
        { state := ((upsert store (descriptor bm batch)).1, t4),
          trace := [.AddOrReuseOperation (descriptor bm batch) none,
                    .RunOperation
                      (opBatchBroadcast (upsert store (descriptor bm batch)).2 batch) none,
                    .SubmitPinnedBatch batch pins r2],
          result := .returned r2 } := by
      unfold redispatch
      rw [hfirst]
      simp [dispatchBatch, registryWorld, descriptor, hbp, hidem, h2, hs2]
    rw [hfirst, hsecond]
    simp [steps, Event.step?, addCalls, runCalls, submitCalls, Event.addOp?, Event.runOp?,
      Event.submitArgs?]

/-- The retried dispatch at a fresh store and a manager with pin submission present. -/
theorem dispatchBatch_retry_witness :
    (redispatch exRegistry exManager ([], 0) exBatch exPins).state.1 =
      (dispatchBatch exRegistry exManager ([], 0) exBatch exPins).state.1 ∧
    submitCalls (redispatch exRegistry exManager ([], 0) exBatch exPins).trace
      = [(exBatch, exPins)] :=
  let h := dispatchBatch_retry (fun (t : Nat) _ => (t + 1, none))
    (fun t _ _ => (t + 1, none)) exManager [] 0 exBatch exPins (by decide)
  ⟨h.2.2.1, (h.2.2.2 ⟨"bp"⟩ 1 2 3 none rfl rfl rfl rfl).2.2.2.2.1⟩

/-- C6 at the manager that `NewBroadcastManager` returns, without an error, when only pin
submission is absent, against the registry of the spec with a fresh store: the descriptor
is the one of the claim and the store holds exactly one record after the first and after
the second dispatch, but neither dispatch reaches `SubmitPinnedBatch`: after
`AddOrReuseOperation` and `RunOperation` have succeeded, the call through the nil
`batchpin` of line 139 panics. -/
theorem redispatch_nil_batchpin :
    (exNew (some ⟨"sa"⟩) none).manager = some exManagerNoPin ∧
    addCalls (redispatch exRegistry exManagerNoPin ([], 0) exBatch exPins).trace =
      [{ Plugin := "ipfs", Namespace := "ns1", Transaction := "tx1",
         Type_ := .OpTypeSharedStorageBatchBroadcast, Status := .Pending,
         Input := [("id", "batch1")] }] ∧
    (dispatchBatch exRegistry exManagerNoPin ([], 0) exBatch exPins).state.1.length = 1 ∧
    (redispatch exRegistry exManagerNoPin ([], 0) exBatch exPins).state.1.length = 1 ∧
    steps (dispatchBatch exRegistry exManagerNoPin ([], 0) exBatch exPins).trace
      = [Step.upsert, Step.execute] ∧
    steps (redispatch exRegistry exManagerNoPin ([], 0) exBatch exPins).trace
      = [Step.upsert, Step.execute] ∧
    submitCalls (redispatch exRegistry exManagerNoPin ([], 0) exBatch exPins).trace = [] ∧
    (redispatch exRegistry exManagerNoPin ([], 0) exBatch exPins).result = .panicked := by
  decide

end Firefly
